import Mathlib

/-!
Shallow embedding of the Sidecar Process Supervisor
(`src/packages/desktop/src-tauri/src/sidecar.rs`, function `start_api_server`).

The Rust function performs effects against the operating system (path
resolution, process spawning, TCP probing, piped stream reads).  Those
boundaries are represented by an oracle record `Env`; the function itself is
translated into a pure Lean function that returns its `Result` value together
with the ordered trace of observable events of the supervisor task, plus the
events emitted by the two stream-relay tasks (which the source runs as
independent spawned tasks; they share no state with the poll loop, so each is
modelled as its own event list).
-/

/-- Observable events of a supervision run, in the order the supervisor task
performs them.  `logInfo` is a `println!` line, `logErr` an `eprintln!` line,
`sleepMs` a `sleep(Duration::from_millis(..))`, `connectAttempt` one
`TcpStream::connect` probe together with its result, and `spawnAttempt` the
single `Command::spawn` call (program, argument, environment key/value, and
whether the spawn succeeded). -/
inductive Event where
  | logInfo (s : String)
  | logErr (s : String)
  | sleepMs (n : Nat)
  | connectAttempt (addr : String) (ok : Bool)
  | spawnAttempt (program : String) (arg : String) (envKey : String) (envVal : String) (ok : Bool)
deriving DecidableEq, Repr

/-- The only hard error of `start_api_server`: the `?` on `Command::spawn`
(line 29 of sidecar.rs).  The boxed OS error payload is abstracted away. -/
inductive SpawnError where
  | spawnFailed
deriving DecidableEq, Repr

/-- One result of `lines.next_line().await` on a piped stream:
`Ok(Some(line))`, `Ok(None)` (end of stream), or `Err(..)`. -/
inductive ReadResult where
  | line (s : String)
  | eof
  | ioError
deriving DecidableEq, Repr

/-- Oracle for the operating-system boundary of one invocation.

* `resourceDir`: the value of `app.path().resource_dir()`; `none` models the
  `Err` case, which the source maps to `"."` via `unwrap_or_else`.
* `debugAssertions`: the value of `cfg!(debug_assertions)` (`true` =
  Development mode, `false` = Production).
* `nodeSpawnable`: whether `Command::new("node")...spawn()` succeeds.  An OS
  `spawn` launches the *program* (`node`); it fails exactly when the program
  cannot be found or executed.  The entry path is passed only as an argument
  and is never consulted by `spawn`, so spawn success is independent of
  `entryExists`.
* `entryExists`: whether the file at the computed entry path exists.  The
  source never reads this (no existence check appears in sidecar.rs), which
  the embedding reflects by never using the field.
* `connectOk`: result of the n-th (0-indexed) `TcpStream::connect` probe.
* `stdoutStream`, `stderrStream`: the sequences of read results the child's
  piped stdout/stderr deliver to the relay tasks. -/
structure Env where
  resourceDir : Option String
  debugAssertions : Bool
  nodeSpawnable : Bool
  entryExists : Bool
  connectOk : Nat → Bool
  stdoutStream : List ReadResult
  stderrStream : List ReadResult

/-- The fixed readiness address probed by the poll loop (sidecar.rs line 54). -/
def readinessAddress : String := "127.0.0.1:2620"

/-- The poll budget: `for _ in 0..30` (sidecar.rs line 52). -/
def pollAttempts : Nat := 30

/-- The fixed inter-attempt delay: `Duration::from_millis(500)` (line 53). -/
def pollIntervalMs : Nat := 500

/-- `PathBuf::join`, abstracted to string concatenation with a separator. -/
def pathJoin (a b : String) : String := a ++ "/" ++ b

/-- The entry path: `resource_dir.join("api-server").join("index.js")`, where
`resource_dir` is the resolved directory or `"."` on resolution failure
(sidecar.rs lines 9-14). -/
def apiEntry (env : Env) : String :=
  pathJoin (pathJoin ((env.resourceDir).getD ".") "api-server") "index.js"

/-- Tagging applied by the stdout relay task: `println!("[API] {}", line)`. -/
def stdoutTag (s : String) : Event := Event.logInfo ("[API] " ++ s)

/-- Tagging applied by the stderr relay task: `eprintln!("[API ERR] {}", line)`. -/
def stderrTag (s : String) : Event := Event.logErr ("[API ERR] " ++ s)

/-- A relay task body: `while let Ok(Some(line)) = lines.next_line().await`.
Each delivered line is emitted through `mk`; the loop stops at end of stream
(`Ok(None)`) or on a read error (`Err(..)`), both without emitting anything
further (sidecar.rs lines 31-49). -/
def relayLines (mk : String → Event) : List ReadResult → List Event
  | [] => []
  | ReadResult.line s :: rest => mk s :: relayLines mk rest
  | ReadResult.eof :: _ => []
  | ReadResult.ioError :: _ => []

/-- The stdout relay task (sidecar.rs lines 31-39). -/
def relayStdout (stream : List ReadResult) : List Event := relayLines stdoutTag stream

/-- The stderr relay task (sidecar.rs lines 41-49). -/
def relayStderr (stream : List ReadResult) : List Event := relayLines stderrTag stream

/-- The stream a child delivers when it writes lines `ls` and then closes the
stream: each line in order, then end of stream, after which the pipe yields
nothing more (`rest` is unreachable by the relay loop). -/
def closedStream (ls : List String) (rest : List ReadResult) : List ReadResult :=
  ls.map ReadResult.line ++ ReadResult.eof :: rest

/-- The readiness log line (sidecar.rs line 55). -/
def readyMsg : String := "API server is ready on port 2620"

/-- The readiness poll loop (sidecar.rs lines 52-58), as a function of the
connect oracle, the index of the next attempt, and the remaining budget.
Each iteration sleeps 500 ms, then probes; on success it logs readiness and
returns (flag `true`); otherwise it continues.  Returns the event trace of
the loop and whether a probe succeeded. -/
def pollLoop (connect : Nat → Bool) : Nat → Nat → List Event × Bool
  | _, 0 => ([], false)
  | k, n + 1 =>
    if connect k then
      ([Event.sleepMs pollIntervalMs, Event.connectAttempt readinessAddress true,
        Event.logInfo readyMsg], true)
    else
      let rest := pollLoop connect (k + 1) n
      (Event.sleepMs pollIntervalMs ::
        Event.connectAttempt readinessAddress false :: rest.1, rest.2)

/-- Result and observable behaviour of one invocation: the `Result` value
returned to the caller, the supervisor task's own event trace, and the events
emitted by the two relay tasks (which run as independent spawned tasks). -/
structure RunOutput where
  result : Except SpawnError Unit
  trace : List Event
  stdoutRelay : List Event
  stderrRelay : List Event
deriving Repr

/-- The Development-mode log line (sidecar.rs line 18). -/
def devModeMsg : String :=
  "Development mode: API server should be started separately with `pnpm dev:api`"

/-- The timeout log line (sidecar.rs line 60). -/
def timeoutMsg : String :=
  "API server started (health check timed out, continuing anyway)"

/-- Events of the Production path up to and including the spawn attempt:
the startup log line (line 22) followed by
`Command::new("node").arg(&api_entry).env("NODE_ENV", "production").spawn()`
(lines 24-29). -/
def startupEvents (env : Env) : List Event :=
  [Event.logInfo ("Starting API server from: " ++ apiEntry env),
   Event.spawnAttempt "node" (apiEntry env) "NODE_ENV" "production" env.nodeSpawnable]

/-- Shallow embedding of `start_api_server` (sidecar.rs lines 8-62).
Resolve the entry path; in Development mode log and return `Ok(())`
immediately; otherwise log, spawn `node` (propagating a spawn failure via
`?`), start the two relay tasks, run the poll loop, and return `Ok(())`
whether or not a probe succeeded (logging the timeout notice when none did). -/
def start_api_server (env : Env) : RunOutput :=
  let entry := apiEntry env
  if env.debugAssertions then
    { result := Except.ok ()
      trace := [Event.logInfo devModeMsg]
      stdoutRelay := []
      stderrRelay := [] }
  else if env.nodeSpawnable then
    let poll := pollLoop env.connectOk 0 pollAttempts
    { result := Except.ok ()
      trace :=
        [Event.logInfo ("Starting API server from: " ++ entry),
         Event.spawnAttempt "node" entry "NODE_ENV" "production" true] ++
        poll.1 ++ (if poll.2 then [] else [Event.logInfo timeoutMsg])
      stdoutRelay := relayStdout env.stdoutStream
      stderrRelay := relayStderr env.stderrStream }
  else
    { result := Except.error SpawnError.spawnFailed
      trace :=
        [Event.logInfo ("Starting API server from: " ++ entry),
         Event.spawnAttempt "node" entry "NODE_ENV" "production" false]
      stdoutRelay := []
      stderrRelay := [] }

/-- Recognizer for connection-attempt events. -/
def isConnectAttempt : Event → Bool
  | Event.connectAttempt _ _ => true
  | _ => false

/-- Recognizer for spawn-attempt events. -/
def isSpawnAttempt : Event → Bool
  | Event.spawnAttempt _ _ _ _ _ => true
  | _ => false

/-- Recognizer for sleep events. -/
def isSleep : Event → Bool
  | Event.sleepMs _ => true
  | _ => false

/-- Number of connection attempts recorded in a trace. -/
def countConnect (tr : List Event) : Nat := tr.countP isConnectAttempt

/-- Number of spawn attempts recorded in a trace. -/
def countSpawn (tr : List Event) : Nat := tr.countP isSpawnAttempt

/-- Number of sleeps recorded in a trace. -/
def countSleep (tr : List Event) : Nat := tr.countP isSleep

/-- The per-attempt block of the poll loop: the fixed delay, then the probe
with its result. -/
def attemptBlock (r : Bool) : List Event :=
  [Event.sleepMs pollIntervalMs, Event.connectAttempt readinessAddress r]

/-- Results of the probes the loop actually performs, in order: starting at
attempt index `k` with budget `n`, failures are accumulated until the first
success, which (if reached within budget) ends the list. -/
def attemptResults (connect : Nat → Bool) : Nat → Nat → List Bool
  | _, 0 => []
  | k, n + 1 => if connect k then [true] else false :: attemptResults connect (k + 1) n

/-- Recognizer for informational log events (`println!`). -/
def isInfoEvent : Event → Bool
  | Event.logInfo _ => true
  | _ => false

/-- Recognizer for error log events (`eprintln!`). -/
def isErrEvent : Event → Bool
  | Event.logErr _ => true
  | _ => false

/-- A Production environment whose entry file is missing while the `node`
interpreter spawns fine and no listener ever binds the port. -/
def missingEntryEnv : Env :=
  { resourceDir := some "/res"
    debugAssertions := false
    nodeSpawnable := true
    entryExists := false
    connectOk := fun _ => false
    stdoutStream := []
    stderrStream := [] }

/-- A Production environment where the spawn itself fails. -/
def spawnFailEnv : Env :=
  { resourceDir := some "/res"
    debugAssertions := false
    nodeSpawnable := false
    entryExists := true
    connectOk := fun _ => false
    stdoutStream := []
    stderrStream := [] }

/-- A Production environment where the first probe already succeeds. -/
def readyEnv : Env :=
  { resourceDir := some "/res"
    debugAssertions := false
    nodeSpawnable := true
    entryExists := true
    connectOk := fun _ => true
    stdoutStream := []
    stderrStream := [] }

/-- A Production environment where no probe ever succeeds. -/
def timeoutEnv : Env :=
  { resourceDir := some "/res"
    debugAssertions := false
    nodeSpawnable := true
    entryExists := true
    connectOk := fun _ => false
    stdoutStream := []
    stderrStream := [] }

/-- A Development environment. -/
def devEnv : Env :=
  { resourceDir := some "/res"
    debugAssertions := true
    nodeSpawnable := true
    entryExists := true
    connectOk := fun _ => true
    stdoutStream := []
    stderrStream := [] }

/-- A Production environment where the third probe (index 2) is the first
to succeed. -/
def readyAt2Env : Env :=
  { resourceDir := some "/res"
    debugAssertions := false
    nodeSpawnable := true
    entryExists := true
    connectOk := fun n => n == 2
    stdoutStream := []
    stderrStream := [] }

/-- A Production environment where resolving the resource directory failed. -/
def noDirEnv : Env :=
  { resourceDir := none
    debugAssertions := false
    nodeSpawnable := true
    entryExists := true
    connectOk := fun _ => false
    stdoutStream := []
    stderrStream := [] }

lemma relayLines_closed (mk : String → Event) (ls : List String) (rest : List ReadResult) :
    relayLines mk (closedStream ls rest) = ls.map mk := by
  induction ls with
  | nil => simp [closedStream, relayLines]
  | cons a as ih => simpa [closedStream, relayLines] using ih

lemma pollLoop_allFail (connect : Nat → Bool) (h : ∀ i, connect i = false) :
    ∀ n k, pollLoop connect k n = ((List.replicate n (attemptBlock false)).flatten, false) := by
  intro n
  induction n with
  | zero => intro k; simp [pollLoop]
  | succ n ih =>
    intro k
    simp [pollLoop, h k, attemptBlock, List.replicate_succ, ih (k + 1)]

lemma pollLoop_firstSuccess (connect : Nat → Bool) :
    ∀ m k n, m < n → (∀ i, i < m → connect (k + i) = false) → connect (k + m) = true →
      pollLoop connect k n =
        ((List.replicate m (attemptBlock false)).flatten ++ attemptBlock true ++
          [Event.logInfo readyMsg], true) := by
  intro m
  induction m with
  | zero =>
    intro k n hn hfail hok
    match n, hn with
    | n + 1, _ =>
      simp only [Nat.add_zero] at hok
      simp [pollLoop, hok, attemptBlock]
  | succ m ih =>
    intro k n hn hfail hok
    match n, hn with
    | n + 1, hn =>
      have h0 : connect k = false := by simpa using hfail 0 (Nat.succ_pos m)
      have hrest := ih (k + 1) n (Nat.lt_of_succ_lt_succ hn)
        (fun i hi => by
          have := hfail (i + 1) (Nat.succ_lt_succ hi)
          simpa [Nat.add_assoc, Nat.add_comm 1 i] using this)
        (by simpa [Nat.add_assoc, Nat.add_comm 1 m] using hok)
      simp [pollLoop, h0, hrest, attemptBlock, List.replicate_succ]

lemma countP_attemptBlock_flatten (p : Event → Bool) (n : Nat) (r : Bool) :
    ((List.replicate n (attemptBlock r)).flatten).countP p =
      n * ((attemptBlock r).countP p) := by
  induction n with
  | zero => simp
  | succ n ih => simp [List.replicate_succ, List.countP_append, ih, Nat.succ_mul, Nat.add_comm]

lemma countP_pollLoop_spawn (connect : Nat → Bool) :
    ∀ n k, ((pollLoop connect k n).1).countP isSpawnAttempt = 0 := by
  intro n
  induction n with
  | zero => intro k; simp [pollLoop]
  | succ n ih =>
    intro k
    by_cases h : connect k = true
    · simp [pollLoop, h, isSpawnAttempt]
    · simp only [Bool.not_eq_true] at h
      simp [pollLoop, h, isSpawnAttempt, ih (k + 1)]

/-- C1 (counterexample): in Production mode with a nonexistent entry file but
a spawnable `node` interpreter, `start_api_server` does NOT return a spawn
error and readiness polling does occur (30 probe attempts), because
`Command::spawn` launches the program `node` and never consults the entry
path, which is passed only as an argument. -/
theorem c1_missing_entry_not_spawn_error :
    missingEntryEnv.entryExists = false ∧
    missingEntryEnv.debugAssertions = false ∧
    (start_api_server missingEntryEnv).result = Except.ok () ∧
    countConnect (start_api_server missingEntryEnv).trace = 30 := by
  refine ⟨rfl, rfl, rfl, ?_⟩
  rfl

/-- C1 (amended): for every Production-mode invocation in which the spawn of
the `node` program fails, `start_api_server` returns the spawn error and
performs no readiness polling: zero connection attempts and zero delays.  A
nonexistent entry path by itself does not cause a spawn failure. -/
theorem c1_spawn_failure_fatal_no_polling (env : Env)
    (hd : env.debugAssertions = false) (hn : env.nodeSpawnable = false) :
    (start_api_server env).result = Except.error SpawnError.spawnFailed ∧
    countConnect (start_api_server env).trace = 0 ∧
    countSleep (start_api_server env).trace = 0 := by
  refine ⟨?_, ?_, ?_⟩ <;>
    simp [start_api_server, hd, hn, countConnect, countSleep,
      List.countP_cons, isConnectAttempt, isSleep]

/-- C1 (witness): the amended theorem applied to a concrete failing-spawn
environment. -/
theorem c1_spawn_failure_fatal_no_polling_witness :
    spawnFailEnv.debugAssertions = false ∧ spawnFailEnv.nodeSpawnable = false ∧
    ((start_api_server spawnFailEnv).result = Except.error SpawnError.spawnFailed ∧
     countConnect (start_api_server spawnFailEnv).trace = 0 ∧
     countSleep (start_api_server spawnFailEnv).trace = 0) :=
  ⟨rfl, rfl, c1_spawn_failure_fatal_no_polling spawnFailEnv rfl rfl⟩

/-- C2 (counterexample): three runs that end in the three distinct terminal
outcomes — Ready (1 probe, success), TimedOutContinuing (30 failed probes)
and Skipped/Development (0 probes) — return the very same success value
`Ok(())` to the caller; the Rust function's type is
`Result<(), Box<dyn Error>>`, so the return value does not distinguish the
outcomes. -/
theorem c2_outcomes_indistinguishable_by_result :
    (start_api_server readyEnv).result = (start_api_server timeoutEnv).result ∧
    (start_api_server timeoutEnv).result = (start_api_server devEnv).result ∧
    countConnect (start_api_server readyEnv).trace = 1 ∧
    countConnect (start_api_server timeoutEnv).trace = 30 ∧
    countConnect (start_api_server devEnv).trace = 0 := by
  refine ⟨rfl, rfl, rfl, ?_, rfl⟩
  rfl

/-- C2 (amended): the success value returned to the caller is always the
uninformative unit value; the caller receives `Ok(())` whether the run ended
Ready, TimedOutContinuing or Skipped, and an error value exactly when the
spawn fails.  The three terminal outcomes are distinguishable only from the
emitted log events, not from the return value. -/
theorem c2_result_carries_no_outcome (env : Env) :
    (start_api_server env).result =
      if env.debugAssertions || env.nodeSpawnable then Except.ok ()
      else Except.error SpawnError.spawnFailed := by
  cases hd : env.debugAssertions <;> cases hn : env.nodeSpawnable <;>
    simp [start_api_server, hd, hn]

/-- C3: for every Development-mode invocation, `start_api_server` returns the
non-error skip result immediately after the development log line: the whole
observable output is that single log line, with no spawn attempt, no
connection attempt, no delay and no relay output, regardless of every other
configuration value. -/
theorem c3_development_skips (env : Env) (h : env.debugAssertions = true) :
    start_api_server env =
      { result := Except.ok (), trace := [Event.logInfo devModeMsg],
        stdoutRelay := [], stderrRelay := [] } ∧
    countSpawn (start_api_server env).trace = 0 ∧
    countConnect (start_api_server env).trace = 0 ∧
    countSleep (start_api_server env).trace = 0 := by
  refine ⟨?_, ?_, ?_, ?_⟩ <;>
    simp [start_api_server, h, countSpawn, countConnect, countSleep,
      List.countP_cons, isSpawnAttempt, isConnectAttempt, isSleep]

/-- C3 (witness): the theorem applied to a concrete Development environment. -/
theorem c3_development_skips_witness :
    devEnv.debugAssertions = true ∧
    (start_api_server devEnv =
      { result := Except.ok (), trace := [Event.logInfo devModeMsg],
        stdoutRelay := [], stderrRelay := [] } ∧
     countSpawn (start_api_server devEnv).trace = 0 ∧
     countConnect (start_api_server devEnv).trace = 0 ∧
     countSleep (start_api_server devEnv).trace = 0) :=
  ⟨rfl, c3_development_skips devEnv rfl⟩

/-- C4: `start_api_server` returns an error value if and only if the process
spawn fails (Production mode with an unspawnable program); poll-budget
exhaustion and individual probe failures always yield a non-error return. -/
theorem c4_error_iff_spawn_fails (env : Env) :
    (start_api_server env).result = Except.error SpawnError.spawnFailed ↔
      env.debugAssertions = false ∧ env.nodeSpawnable = false := by
  cases hd : env.debugAssertions <;> cases hn : env.nodeSpawnable <;>
    simp [start_api_server, hd, hn]

lemma isSpawnAttempt_eval_logInfo (s : String) :
    isSpawnAttempt (Event.logInfo s) = false := rfl

lemma isSpawnAttempt_eval_spawn (p a k v : String) (o : Bool) :
    isSpawnAttempt (Event.spawnAttempt p a k v o) = true := rfl

/-- C9: at most one child process is spawned per invocation — exactly one
spawn attempt in Production mode and none in Development mode — so a failed
spawn is never retried; only connectivity probes repeat. -/
theorem c9_at_most_one_spawn (env : Env) :
    countSpawn (start_api_server env).trace =
      if env.debugAssertions then 0 else 1 := by
  cases hd : env.debugAssertions with
  | true => simp [start_api_server, hd, countSpawn, List.countP_cons, isSpawnAttempt]
  | false =>
    cases hn : env.nodeSpawnable with
    | false => simp [start_api_server, hd, hn, countSpawn, List.countP_cons, isSpawnAttempt]
    | true =>
      have hps := countP_pollLoop_spawn env.connectOk pollAttempts 0
      by_cases hp : (pollLoop env.connectOk 0 pollAttempts).2 = true <;>
        simp [start_api_server, hd, hn, hp, countSpawn, List.countP_append,
          List.countP_cons, isSpawnAttempt_eval_logInfo, isSpawnAttempt_eval_spawn, hps]

/-- C10: when resolving the platform resource directory fails, the run is not
an error: the directory silently falls back to `"."`, the entry path becomes
`./api-server/index.js`, and the whole observable behaviour is identical to a
run whose resource directory resolved to `"."`. -/
theorem c10_resource_dir_fallback (env : Env) (h : env.resourceDir = none) :
    apiEntry env = "./api-server/index.js" ∧
    start_api_server env = start_api_server { env with resourceDir := some "." } := by
  rcases env with ⟨rd, d, ns, ee, c, so, se⟩
  obtain rfl : rd = none := h
  exact ⟨rfl, rfl⟩

/-- C10 (witness): the theorem applied to a concrete environment whose
resource-directory resolution failed. -/
theorem c10_resource_dir_fallback_witness :
    noDirEnv.resourceDir = none ∧
    (apiEntry noDirEnv = "./api-server/index.js" ∧
     start_api_server noDirEnv = start_api_server { noDirEnv with resourceDir := some "." }) :=
  ⟨rfl, c10_resource_dir_fallback noDirEnv rfl⟩

/-- C5: in every Production run where no probe ever succeeds, the loop
performs exactly `pollAttempts` (30) connection attempts, the fixed
`pollIntervalMs` (500 ms) delay occurring before each attempt including the
first (each attempt's block is the delay followed by the probe), and the run
terminates normally with the non-error timeout outcome. -/
theorem c5_timeout_after_exact_attempts (env : Env)
    (hd : env.debugAssertions = false) (hn : env.nodeSpawnable = true)
    (hc : ∀ n, env.connectOk n = false) :
    (start_api_server env).result = Except.ok () ∧
    (start_api_server env).trace =
      startupEvents env ++
        (List.replicate pollAttempts (attemptBlock false)).flatten ++
        [Event.logInfo timeoutMsg] ∧
    countConnect (start_api_server env).trace = pollAttempts ∧
    countSleep (start_api_server env).trace = pollAttempts := by
  have hp := pollLoop_allFail env.connectOk hc pollAttempts 0
  have htr : (start_api_server env).trace =
      startupEvents env ++
        (List.replicate pollAttempts (attemptBlock false)).flatten ++
        [Event.logInfo timeoutMsg] := by
    simp [start_api_server, hd, hn, hp, startupEvents]
  refine ⟨by simp [start_api_server, hd, hn], htr, ?_, ?_⟩ <;>
    rw [htr] <;>
    simp [countConnect, countSleep, List.countP_append, List.countP_cons,
      countP_attemptBlock_flatten, attemptBlock, startupEvents,
      isConnectAttempt, isSleep]

/-- C5 (witness): the theorem applied to a concrete environment where every
probe fails. -/
theorem c5_timeout_after_exact_attempts_witness :
    timeoutEnv.debugAssertions = false ∧ timeoutEnv.nodeSpawnable = true ∧
    (∀ n, timeoutEnv.connectOk n = false) ∧
    ((start_api_server timeoutEnv).result = Except.ok () ∧
     (start_api_server timeoutEnv).trace =
       startupEvents timeoutEnv ++
         (List.replicate pollAttempts (attemptBlock false)).flatten ++
         [Event.logInfo timeoutMsg] ∧
     countConnect (start_api_server timeoutEnv).trace = pollAttempts ∧
     countSleep (start_api_server timeoutEnv).trace = pollAttempts) :=
  ⟨rfl, rfl, fun _ => rfl,
    c5_timeout_after_exact_attempts timeoutEnv rfl rfl (fun _ => rfl)⟩

/-- C6: in every Production run whose first successful probe is attempt `k`
(0-indexed, within the budget), the supervisor returns the non-error ready
outcome immediately after that success: the trace ends with the successful
attempt's block followed by the readiness log line, so no event of any kind —
in particular no further connection attempt — follows the success, and the
total number of connection attempts is `k + 1 ≤ pollAttempts`.  The probe
events carry no payload: the connection is used purely as a liveness check. -/
theorem c6_ready_on_first_success (env : Env) (k : Nat)
    (hd : env.debugAssertions = false) (hn : env.nodeSpawnable = true)
    (hk : k < pollAttempts)
    (hfail : ∀ i, i < k → env.connectOk i = false)
    (hok : env.connectOk k = true) :
    (start_api_server env).result = Except.ok () ∧
    (start_api_server env).trace =
      startupEvents env ++ (List.replicate k (attemptBlock false)).flatten ++
        attemptBlock true ++ [Event.logInfo readyMsg] ∧
    countConnect (start_api_server env).trace = k + 1 ∧
    k + 1 ≤ pollAttempts := by
  have hp := pollLoop_firstSuccess env.connectOk k 0 pollAttempts hk
    (fun i hi => by simpa using hfail i hi) (by simpa using hok)
  have htr : (start_api_server env).trace =
      startupEvents env ++ (List.replicate k (attemptBlock false)).flatten ++
        attemptBlock true ++ [Event.logInfo readyMsg] := by
    simp [start_api_server, hd, hn, hp, startupEvents]
  refine ⟨by simp [start_api_server, hd, hn], htr, ?_, hk⟩
  rw [htr]
  simp [countConnect, List.countP_append, List.countP_cons,
    countP_attemptBlock_flatten, attemptBlock, startupEvents, isConnectAttempt]

/-- C6 (witness): the theorem applied to a concrete environment whose third
probe (index 2) is the first to succeed. -/
theorem c6_ready_on_first_success_witness :
    readyAt2Env.debugAssertions = false ∧ readyAt2Env.nodeSpawnable = true ∧
    2 < pollAttempts ∧ (∀ i, i < 2 → readyAt2Env.connectOk i = false) ∧
    readyAt2Env.connectOk 2 = true ∧
    ((start_api_server readyAt2Env).result = Except.ok () ∧
     (start_api_server readyAt2Env).trace =
       startupEvents readyAt2Env ++
         (List.replicate 2 (attemptBlock false)).flatten ++
         attemptBlock true ++ [Event.logInfo readyMsg] ∧
     countConnect (start_api_server readyAt2Env).trace = 2 + 1 ∧
     2 + 1 ≤ pollAttempts) :=
  ⟨rfl, rfl, by decide, by decide, rfl,
    c6_ready_on_first_success readyAt2Env 2 rfl rfl (by decide) (by decide) rfl⟩

/-- C7: each relay task emits exactly the lines its stream delivered, in the
order written, each line tagged for its source — stdout lines become
informational log events carrying the server-output tag, stderr lines become
error log events carrying the distinguishing error tag — and the relay stops
at end-of-stream without error, emitting nothing for whatever follows the
end-of-stream marker. -/
theorem c7_relays_exact_ordered_tagged (outLines errLines : List String)
    (more₁ more₂ : List ReadResult) :
    relayStdout (closedStream outLines more₁) = outLines.map stdoutTag ∧
    relayStderr (closedStream errLines more₂) = errLines.map stderrTag ∧
    (outLines.map stdoutTag).all isInfoEvent = true ∧
    (errLines.map stderrTag).all isErrEvent = true := by
  refine ⟨relayLines_closed _ _ _, relayLines_closed _ _ _, ?_, ?_⟩ <;>
    simp [List.all_eq_true, stdoutTag, stderrTag, isInfoEvent, isErrEvent]

/-- C8: the poll loop's attempts are strictly sequential: its whole event
trace is the order-preserving concatenation of one contiguous block per
attempt actually made — the attempt's delay immediately followed by its
probe — so every event of attempt `n+1` occurs after attempt `n`'s delay and
probe have both resolved, with only the readiness log line following the
final (successful) block. -/
theorem c8_poll_attempts_sequential (connect : Nat → Bool) (k n : Nat) :
    (pollLoop connect k n).1 =
      (attemptResults connect k n).flatMap attemptBlock ++
        (if (pollLoop connect k n).2 then [Event.logInfo readyMsg] else []) := by
  induction n generalizing k with
  | zero => simp [pollLoop, attemptResults]
  | succ n ih =>
    by_cases h : connect k = true
    · simp [pollLoop, attemptResults, h, attemptBlock]
    · simp only [Bool.not_eq_true] at h
      simp [pollLoop, attemptResults, h, attemptBlock, ih (k + 1)]
